import Mathlib

/-!
Verification of the paginated infinite-scroll load controller.

Shallow embedding of `src/ecommerce-app/src/hooks/useAdvancedInfiniteScroll.ts`.

Modelling conventions:
* React `useState` values and the mirror refs (`loadingRef`, `hasMoreRef`, …)
  are modelled as a single record `Sys`; a `setX` call is a record update
  (the code keeps the refs in sync with the state via effects).
* `AbortController` tokens are minted with sequentially increasing ids
  (`curToken`).  Every `abort()` in the source is either applied to the
  current controller right before a new one is minted (line 130-135) or by
  `reset` (line 314); hence a token id is aborted exactly when it is smaller
  than the current id, or equal to it with the `curAborted` flag set.
* Asynchrony (the awaited `fetchData` promise, `setTimeout` callbacks) is
  modelled by a FIFO queue of pending `Task`s; `step` pops and executes the
  head.  The supplied `fetchData` is an oracle `Env`: a function of the page
  and the number of fetch invocations made so far, fixed when the request is
  issued (the eventual value of the promise).
* JS `try/catch/finally` semantics are embedded faithfully: the `finally`
  block of `fetchWithRetry` (lines 193-202) runs on every exit path,
  including the `return` inside the retry-scheduling branch of the `catch`.
* Observable interactions are recorded in logs: `fetchLog` (each invocation
  of `fetchData`, with the attempt number), `delayLog` (each delay passed to
  the retry `setTimeout`), `successLog` / `errorLog` (callback invocations).
-/

namespace AdvancedInfiniteScroll

/-- The value an invocation of the supplied `fetchData` eventually settles
with: either `{ data, hasMore, total? }` or a rejection carrying an error. -/
inductive FetchResult (T E : Type) where
  | success (data : List T) (hasMore : Bool) (total : Option Nat)
  | failure (err : E)
deriving DecidableEq, Repr

/-- The fetch oracle: page ↦ (number of fetchData invocations already made)
↦ outcome of this invocation. -/
def Env (T E : Type) := Nat → Nat → FetchResult T E

/-- Pending asynchronous work:
* `inflight`: an awaited `fetchData` promise (line 146) together with the
  abort token of its attempt and the value it will settle with;
* `retryTimer`: the backoff `setTimeout` (lines 180-184), carrying the
  attempt number it will invoke `fetchWithRetry` with and the delay it was
  scheduled with;
* `refreshTimer`: the zero-delay `setTimeout` of `refresh` (lines 342-344). -/
inductive Task (T E : Type) where
  | inflight (page : Nat) (isInitial : Bool) (retryCount : Nat) (token : Nat)
      (result : FetchResult T E)
  | retryTimer (page : Nat) (isInitial : Bool) (retryCount : Nat) (token : Nat)
      (delay : Nat)
  | refreshTimer
deriving DecidableEq, Repr

/-- Hook configuration (the options relevant to the load controller). -/
structure Config where
  initialPage : Nat
  retryAttempts : Nat
  retryDelay : Nat
  enabled : Bool
deriving DecidableEq, Repr

/-- The controller state: React state (lines 47-53), the tracking refs
(lines 56-66), the abort-token counter, the pending-task queue and the
observation logs. -/
structure Sys (T E : Type) where
  data : List T
  loading : Bool
  error : Option E
  hasMore : Bool
  isRetrying : Bool
  currentPage : Nat
  totalCount : Option Nat
  retryCountRef : Nat
  currentRequestPageRef : Option Nat
  isInitialLoadingRef : Bool
  initialLoadRef : Bool
  enabledRef : Bool
  curToken : Nat
  curAborted : Bool
  debounceTimer : Bool
  tasks : List (Task T E)
  fetchLog : List (Nat × Nat)
  delayLog : List Nat
  successLog : List (List T × Nat)
  errorLog : List E
deriving DecidableEq, Repr

variable {T E : Type}

/-- Abort status (`signal.aborted`) of the token `t`: tokens are minted sequentially and a
mint aborts its predecessor, so `t` is aborted iff it is older than the
current token, or is the current token and was aborted explicitly. -/
def isAborted (s : Sys T E) (t : Nat) : Bool :=
  decide (t < s.curToken) || (decide (t = s.curToken) && s.curAborted)

/-- The `finally` block of `fetchWithRetry` (lines 193-201) in the
non-aborted case: clear `loading`, the in-flight page marker, and (for
initial loads) the initial-load-in-progress marker. -/
def settleCleanup (isInitial : Bool) (s : Sys T E) : Sys T E :=
  { s with loading := false
           currentRequestPageRef := none
           isInitialLoadingRef := if isInitial then false else s.isInitialLoadingRef }

/-- The synchronous first part of `fetchWithRetry(page, isInitial, retryCount)`
(lines 102-146), up to and including issuing the `fetchData` call: the
guards (lines 109-121), recording the in-flight page (124-127), aborting the
previous controller and minting a new one (130-136), `setLoading(true)`,
`setError(null)` (138-139), `setIsRetrying` when retrying (141-143), and the
invocation of `fetchData` (146), which enqueues the awaited promise. -/
def fetchWithRetryStart (_cfg : Config) (env : Env T E)
    (page : Nat) (isInitial : Bool) (retryCount : Nat) (s : Sys T E) : Sys T E :=
  if s.enabledRef = false ∨ s.loading = true then s
  else if s.currentRequestPageRef = some page ∧ isInitial = false then s
  else if isInitial = true ∧ s.isInitialLoadingRef = true then s
  else
    { s with
      currentRequestPageRef := some page
      isInitialLoadingRef := if isInitial then true else s.isInitialLoadingRef
      curToken := s.curToken + 1
      curAborted := false
      loading := true
      error := none
      isRetrying := if retryCount > 0 then true else s.isRetrying
      fetchLog := s.fetchLog ++ [(page, retryCount)]
      tasks := s.tasks ++
        [Task.inflight page isInitial retryCount (s.curToken + 1)
          (env page s.fetchLog.length)] }

/-- The continuation of `fetchWithRetry` after the awaited `fetchData`
settles (lines 148-202): the post-await abort checks (149, 171), the success
path (151-169), the retry-scheduling path (177-187) and the terminal-error
path (190-192), each followed by the `finally` block — which, per JS
semantics, also runs after the `return` of the retry branch. -/
def fetchSettle (cfg : Config) (page : Nat) (isInitial : Bool) (retryCount : Nat)
    (token : Nat) (result : FetchResult T E) (s : Sys T E) : Sys T E :=
  if isAborted s token then s
  else
    match result with
    | .success newData moreAvailable total =>
        settleCleanup isInitial
          { s with
            data := if isInitial then newData else s.data ++ newData
            hasMore := moreAvailable
            currentPage := page
            totalCount := match total with
              | some t => some t
              | none => s.totalCount
            retryCountRef := 0
            isRetrying := false
            successLog := s.successLog ++ [(newData, page)] }
    | .failure e =>
        if retryCount < cfg.retryAttempts then
          settleCleanup isInitial
            { s with
              retryCountRef := retryCount + 1
              delayLog := s.delayLog ++ [cfg.retryDelay * 2 ^ retryCount]
              tasks := s.tasks ++
                [Task.retryTimer page isInitial (retryCount + 1) token
                  (cfg.retryDelay * 2 ^ retryCount)] }
        else
          settleCleanup isInitial
            { s with
              error := some e
              isRetrying := false
              errorLog := s.errorLog ++ [e] }

/-- The `loadMore` action (lines 298-304): only fetches the next page when not loading,
more data is available, the hook is enabled and no request page is
recorded. -/
def loadMore (cfg : Config) (env : Env T E) (s : Sys T E) : Sys T E :=
  if s.loading = false ∧ s.hasMore = true ∧ cfg.enabled = true ∧
      s.currentRequestPageRef = none then
    fetchWithRetryStart cfg env (s.currentPage + 1) false 0 s
  else s

/-- The `retry` action (lines 306-310): when an error is set, re-invoke
`fetchWithRetry(currentPage, false, 0)`. -/
def retry (cfg : Config) (env : Env T E) (s : Sys T E) : Sys T E :=
  match s.error with
  | none => s
  | some _ => fetchWithRetryStart cfg env s.currentPage false 0 s

/-- The `reset` action (lines 312-337): abort the live request, clear the debounce
timer, restore every state field to its construction-time default and clear
the tracking refs.  Pending tasks are not removed from the queue — the
aborted token makes their effects no-ops. -/
def reset (cfg : Config) (s : Sys T E) : Sys T E :=
  { s with
    curAborted := true
    debounceTimer := false
    data := []
    loading := false
    error := none
    hasMore := true
    isRetrying := false
    currentPage := cfg.initialPage
    totalCount := none
    retryCountRef := 0
    currentRequestPageRef := none
    isInitialLoadingRef := false
    initialLoadRef := false }

/-- The `refresh` action (lines 339-345): reset, then schedule (via a zero-delay
timeout, not synchronously) a replace-load of the initial page. -/
def refresh (cfg : Config) (s : Sys T E) : Sys T E :=
  let s1 := reset cfg s
  { s1 with tasks := s1.tasks ++ [Task.refreshTimer] }

/-- The state of a freshly constructed hook (lines 47-66): `useState`
defaults and cleared refs, empty task queue and logs. -/
def initSys (cfg : Config) : Sys T E :=
  { data := []
    loading := false
    error := none
    hasMore := true
    isRetrying := false
    currentPage := cfg.initialPage
    totalCount := none
    retryCountRef := 0
    currentRequestPageRef := none
    isInitialLoadingRef := false
    initialLoadRef := false
    enabledRef := cfg.enabled
    curToken := 0
    curAborted := false
    debounceTimer := false
    tasks := []
    fetchLog := []
    delayLog := []
    successLog := []
    errorLog := [] }

/-- The initial-load effect (lines 348-355): when enabled with no data, not
loading and the one-shot latch unset, set the latch and issue the initial
replace-load. -/
def initialLoadEffect (cfg : Config) (env : Env T E) (s : Sys T E) : Sys T E :=
  if s.enabledRef = true ∧ s.data.length = 0 ∧ s.loading = false ∧
      s.initialLoadRef = false ∧ s.isInitialLoadingRef = false then
    fetchWithRetryStart cfg env cfg.initialPage true 0
      { s with initialLoadRef := true }
  else s

/-- The debounced scroll handler (lines 208-213): clears any previous
debounce timer and arms a new one. -/
def debouncedScrollHandler (s : Sys T E) : Sys T E :=
  { s with debounceTimer := true }

/-- The body of the debounce timeout (lines 213-228): when the viewport is
near the bottom and the gating conditions hold, load the next page. -/
def debounceTimerFire (cfg : Config) (env : Env T E) (nearBottom : Bool)
    (s : Sys T E) : Sys T E :=
  let s1 := { s with debounceTimer := false }
  if nearBottom = true ∧ s1.loading = false ∧ s1.hasMore = true ∧
      s1.enabledRef = true ∧ s1.currentRequestPageRef = none then
    fetchWithRetryStart cfg env (s1.currentPage + 1) false 0 s1
  else s1

/-- Execute the head of the pending-task queue: an awaited fetch settles, a
retry timer fires (checking `signal.aborted` first, line 181), or the
refresh timer fires (line 343). -/
def step (cfg : Config) (env : Env T E) (s : Sys T E) : Sys T E :=
  match s.tasks with
  | [] => s
  | t :: rest =>
    let s1 := { s with tasks := rest }
    match t with
    | .inflight page isInitial rc tok res => fetchSettle cfg page isInitial rc tok res s1
    | .retryTimer page isInitial rc tok _ =>
        if isAborted s1 tok then s1
        else fetchWithRetryStart cfg env page isInitial rc s1
    | .refreshTimer => fetchWithRetryStart cfg env cfg.initialPage true 0 s1

/-- Run `n` event-loop turns. -/
def run (cfg : Config) (env : Env T E) : Nat → Sys T E → Sys T E
  | 0, s => s
  | n + 1, s => run cfg env n (step cfg env s)

/-- The outbound state snapshot consumed by the rendering layer
(lines 362-369, sans the actions). -/
structure Snapshot (T E : Type) where
  data : List T
  loading : Bool
  error : Option E
  hasMore : Bool
  isRetrying : Bool
  currentPage : Nat
  totalCount : Option Nat
deriving DecidableEq, Repr

/-- Take the outbound snapshot of a controller state. -/
def Sys.snapshot (s : Sys T E) : Snapshot T E :=
  ⟨s.data, s.loading, s.error, s.hasMore, s.isRetrying, s.currentPage, s.totalCount⟩

end AdvancedInfiniteScroll

namespace AdvancedInfiniteScroll

variable {T E : Type}

/-! ## Helper lemmas shared across the claim theorems -/

/-- Issuing a fetch never touches `totalCount`. -/
lemma fetchWithRetryStart_totalCount (cfg : Config) (env : Env T E)
    (page : Nat) (isInitial : Bool) (rc : Nat) (s : Sys T E) :
    (fetchWithRetryStart cfg env page isInitial rc s).totalCount = s.totalCount := by
  unfold fetchWithRetryStart
  split
  · rfl
  · split
    · rfl
    · split <;> rfl

/-- A settlement with an already-aborted token leaves the whole state
untouched (lines 149 and 171, and the guard of the `finally`). -/
lemma fetchSettle_aborted (cfg : Config) (page : Nat) (isInitial : Bool)
    (rc tok : Nat) (res : FetchResult T E) (s : Sys T E)
    (h : isAborted s tok = true) :
    fetchSettle cfg page isInitial rc tok res s = s := by
  unfold fetchSettle
  simp [h]

/-- Sample configuration used to instantiate the universally quantified
theorems on concrete inputs. -/
def sampleCfg : Config := ⟨0, 2, 100, true⟩

/-- A fetch oracle that always rejects. -/
def alwaysFail : Env Nat Nat := fun _ _ => .failure 7

/-- The always-failing scenario, `n` event-loop turns after the automatic
initial load has been issued. -/
def failRun (n : Nat) : Sys Nat Nat :=
  run sampleCfg alwaysFail n (initialLoadEffect sampleCfg alwaysFail (initSys sampleCfg))

/-- A freshly constructed controller over concrete item and error types. -/
def freshSys : Sys Nat Nat := initSys sampleCfg

/-- A fresh state that is marked as loading. -/
def loadingSys : Sys Nat Nat := { freshSys with loading := true }

/-- A fresh state already holding one item. -/
def oneItemSys : Sys Nat Nat := { freshSys with data := [5] }

end AdvancedInfiniteScroll

namespace AdvancedInfiniteScroll

variable {T E : Type}

/-! ## C1 — backoff scheduling and the state held during the backoff window -/

/-- C1, counterexample: with `retryLimit = 2` and an always-failing fetch,
one event-loop turn after the initial load of page 0 is issued the first
attempt has failed and the retry is scheduled (a pending `retryTimer` for
attempt 1 with delay `retryDelay × 2^0 = 100`), yet — contrary to the claim —
`loading` is `false` and the in-flight page marker is cleared during the
backoff window: the `finally` block of `fetchWithRetry` runs even after the
`return` of the retry-scheduling branch. -/
theorem c1_counterexample_loading_cleared_during_backoff :
    (failRun 1).tasks = [Task.retryTimer 0 true 1 1 100] ∧
    (failRun 1).loading = false ∧
    (failRun 1).currentRequestPageRef = none ∧
    (failRun 1).delayLog = [100] := by
  decide

/-- C1, amended: for every fetch attempt of page `p` that fails,
non-cancelled, with `attemptNumber < retryLimit`, the controller schedules a
re-invocation of attempt `attemptNumber + 1` after
`retryDelay × 2^attemptNumber` time units and does not surface the error —
but, contrary to the original claim, at the end of the failed attempt
(before the backoff delay elapses) `loading` is set to `false` and the
in-flight page marker is cleared by the `finally` block; both are
re-established only when the next attempt starts. -/
theorem c1_amended_backoff_schedule (cfg : Config) (page : Nat)
    (isInitial : Bool) (rc tok : Nat) (e : E) (s : Sys T E)
    (hab : isAborted s tok = false) (hrc : rc < cfg.retryAttempts) :
    (fetchSettle cfg page isInitial rc tok (.failure e) s).tasks
        = s.tasks ++ [Task.retryTimer page isInitial (rc + 1) tok
            (cfg.retryDelay * 2 ^ rc)] ∧
    (fetchSettle cfg page isInitial rc tok (.failure e) s).delayLog
        = s.delayLog ++ [cfg.retryDelay * 2 ^ rc] ∧
    (fetchSettle cfg page isInitial rc tok (.failure e) s).loading = false ∧
    (fetchSettle cfg page isInitial rc tok (.failure e) s).currentRequestPageRef
        = none ∧
    (fetchSettle cfg page isInitial rc tok (.failure e) s).error = s.error ∧
    (fetchSettle cfg page isInitial rc tok (.failure e) s).retryCountRef
        = rc + 1 := by
  unfold fetchSettle settleCleanup
  simp [hab, hrc]

/-- C1, witness for the amended theorem at concrete inputs. -/
theorem c1_amended_witness :
    isAborted freshSys 0 = false ∧
    0 < sampleCfg.retryAttempts ∧
    (fetchSettle sampleCfg 3 false 0 0 (.failure 7) freshSys).tasks
        = [Task.retryTimer 3 false 1 0 100] :=
  ⟨by decide, by decide,
    by
      have h := c1_amended_backoff_schedule sampleCfg 3 false 0 0 7
        freshSys (by decide) (by decide)
      rw [h.1]
      decide⟩

/-! ## C2 — cancelled requests settle without any effect -/

/-- C2: for every request whose cancellation token has been invalidated
before its fetch settles, the settlement mutates no controller state at all
(the whole state record, hence data, loading, error, hasMore, isRetrying,
currentPage, totalCount and the in-flight page marker, is unchanged) and
invokes neither callback (the success and error logs are part of the state),
whatever the fetched result was — including a success. -/
theorem c2_cancelled_settlement_is_noop (cfg : Config) (page : Nat)
    (isInitial : Bool) (rc tok : Nat) (res : FetchResult T E) (s : Sys T E)
    (h : isAborted s tok = true) :
    fetchSettle cfg page isInitial rc tok res s = s :=
  fetchSettle_aborted cfg page isInitial rc tok res s h

/-- C2, witness: after `reset` the token that was live before the reset is
invalidated, and a successful settlement of that token changes nothing. -/
theorem c2_witness :
    isAborted (reset sampleCfg freshSys) 0 = true ∧
    fetchSettle sampleCfg 2 false 0 0 (.success [1] true (some 9))
        (reset sampleCfg freshSys)
      = reset sampleCfg freshSys :=
  ⟨by decide,
    c2_cancelled_settlement_is_noop sampleCfg 2 false 0 0
      (.success [1] true (some 9)) (reset sampleCfg freshSys)
      (by decide)⟩

/-! ## C5 — loadMore is a no-op when it must not fetch -/

/-- C5: whenever `hasMore` is false, or `loading` is true, or the in-flight
page marker is set, `loadMore()` returns the state unchanged — in
particular no field changes and, since `fetchLog` is part of the state, the
fetch function is invoked zero times. -/
theorem c5_loadmore_noop (cfg : Config) (env : Env T E) (s : Sys T E)
    (h : s.hasMore = false ∨ s.loading = true ∨ s.currentRequestPageRef ≠ none) :
    loadMore cfg env s = s := by
  unfold loadMore
  rcases h with h | h | h <;> simp [h]

/-- C5, witness: a loading state is left untouched by `loadMore`. -/
theorem c5_witness :
    (loadingSys.hasMore = false ∨ loadingSys.loading = true ∨
      loadingSys.currentRequestPageRef ≠ none) ∧
    loadMore sampleCfg alwaysFail loadingSys = loadingSys :=
  ⟨Or.inr (Or.inl (by decide)),
    c5_loadmore_noop sampleCfg alwaysFail loadingSys
      (Or.inr (Or.inl (by decide)))⟩

/-! ## C6 — reset restores the construction-time defaults -/

/-- C6: for every prior state, immediately after `reset()` the state equals
its construction-time defaults — empty data, loading false, error null,
hasMore true, isRetrying false, currentPage = initialPage, totalCount null,
retry counter zero, in-flight-page and initial-load markers cleared — the
token that was live before the reset is invalidated, and the pending
debounce timer is cleared. -/
theorem c6_reset_restores_defaults (cfg : Config) (s : Sys T E) :
    (reset cfg s).data = [] ∧
    (reset cfg s).loading = false ∧
    (reset cfg s).error = none ∧
    (reset cfg s).hasMore = true ∧
    (reset cfg s).isRetrying = false ∧
    (reset cfg s).currentPage = cfg.initialPage ∧
    (reset cfg s).totalCount = none ∧
    (reset cfg s).retryCountRef = 0 ∧
    (reset cfg s).currentRequestPageRef = none ∧
    (reset cfg s).isInitialLoadingRef = false ∧
    (reset cfg s).initialLoadRef = false ∧
    isAborted (reset cfg s) s.curToken = true ∧
    (reset cfg s).debounceTimer = false := by
  unfold reset isAborted
  simp

/-! ## C7 — effect of a successful, non-cancelled settlement -/

/-- C7: every successful non-cancelled fetch of page `p` returning
`(newItems, moreAvailable, total)` replaces the data when it is a replace
load and otherwise appends `newItems` to the previous data (so no previous
element is removed or reordered); `hasMore` becomes `moreAvailable`,
`currentPage` becomes `p`, `loading` becomes false, `isRetrying` becomes
false, and the success callback is invoked with `(newItems, p)`. -/
theorem c7_success_settlement (cfg : Config) (page : Nat) (isInitial : Bool)
    (rc tok : Nat) (newData : List T) (more : Bool) (total : Option Nat)
    (s : Sys T E) (h : isAborted s tok = false) :
    (fetchSettle cfg page isInitial rc tok (.success newData more total) s).data
        = (if isInitial then newData else s.data ++ newData) ∧
    (fetchSettle cfg page isInitial rc tok (.success newData more total) s).hasMore
        = more ∧
    (fetchSettle cfg page isInitial rc tok (.success newData more total) s).currentPage
        = page ∧
    (fetchSettle cfg page isInitial rc tok (.success newData more total) s).loading
        = false ∧
    (fetchSettle cfg page isInitial rc tok (.success newData more total) s).isRetrying
        = false ∧
    (fetchSettle cfg page isInitial rc tok (.success newData more total) s).successLog
        = s.successLog ++ [(newData, page)] := by
  unfold fetchSettle settleCleanup
  simp [h]

/-- C7, witness: an append-load success on a state holding one page. -/
theorem c7_witness :
    isAborted oneItemSys 0 = false ∧
    (fetchSettle sampleCfg 1 false 0 0 (.success [6] false none)
        oneItemSys).data = [5, 6] :=
  ⟨by decide,
    by
      have h := c7_success_settlement sampleCfg 1 false 0 0 [6] false none
        oneItemSys (by decide)
      rw [h.1]
      decide⟩

end AdvancedInfiniteScroll

namespace AdvancedInfiniteScroll

variable {T E : Type}

/-! ## C10 — totalCount persistence -/

/-- A settlement never erases a present `totalCount`. -/
lemma fetchSettle_totalCount_isSome (cfg : Config) (page : Nat)
    (isInitial : Bool) (rc tok : Nat) (res : FetchResult T E) (s : Sys T E)
    (v : Nat) (hv : s.totalCount = some v) :
    (fetchSettle cfg page isInitial rc tok res s).totalCount ≠ none := by
  by_cases hab : isAborted s tok = true
  · rw [fetchSettle_aborted cfg page isInitial rc tok res s hab]
    simp [hv]
  · cases res with
    | success newData more total =>
        cases total <;> simp [fetchSettle, settleCleanup, hab, hv]
    | failure e =>
        by_cases hrc : rc < cfg.retryAttempts <;>
          simp [fetchSettle, settleCleanup, hab, hrc, hv]

/-- C10: once `totalCount` holds a value, a successful fetch whose result
omits the total leaves it unchanged at that value; a cancelled settlement,
`loadMore`, `retry` and the synchronous start of any fetch also leave it at
that value; no settlement whatsoever can put it back to null; and among the
operations of the controller only `reset()` (and `refresh()`, which begins with reset)
set it back to null. -/
theorem c10_totalcount_persistence (cfg : Config) (env : Env T E)
    (s : Sys T E) (v : Nat) (hv : s.totalCount = some v) :
    (∀ page isInitial rc tok newData more,
        (fetchSettle cfg page isInitial rc tok
          (.success newData more none) s).totalCount = some v) ∧
    (loadMore cfg env s).totalCount = some v ∧
    (retry cfg env s).totalCount = some v ∧
    (∀ page isInitial rc,
        (fetchWithRetryStart cfg env page isInitial rc s).totalCount = some v) ∧
    (∀ page isInitial rc tok res,
        (fetchSettle cfg page isInitial rc tok (res : FetchResult T E) s).totalCount
          ≠ none) ∧
    (reset cfg s).totalCount = none ∧
    (refresh cfg s).totalCount = none := by
  refine ⟨?_, ?_, ?_, ?_, ?_, rfl, rfl⟩
  · intro page isInitial rc tok newData more
    unfold fetchSettle settleCleanup
    split
    · simpa using hv
    · simpa using hv
  · unfold loadMore
    split
    · rw [fetchWithRetryStart_totalCount]
      exact hv
    · exact hv
  · unfold retry
    split
    · exact hv
    · rw [fetchWithRetryStart_totalCount]
      exact hv
  · intro page isInitial rc
    rw [fetchWithRetryStart_totalCount]
    exact hv
  · intro page isInitial rc tok res
    exact fetchSettle_totalCount_isSome cfg page isInitial rc tok res s v hv

/-- A fresh controller state whose `totalCount` has been reported as 5. -/
def totalSys : Sys Nat Nat := { freshSys with totalCount := some 5 }

/-- C10, witness at concrete inputs: a total-less success keeps the value,
and reset nulls it. -/
theorem c10_witness :
    totalSys.totalCount = some 5 ∧
    (fetchSettle sampleCfg 1 false 0 0 (.success [3] true none)
        totalSys).totalCount = some 5 ∧
    (reset sampleCfg totalSys).totalCount = none :=
  ⟨by decide,
    (c10_totalcount_persistence sampleCfg alwaysFail totalSys 5
      (by decide)).1 1 false 0 0 [3] true,
    (c10_totalcount_persistence sampleCfg alwaysFail totalSys 5
      (by decide)).2.2.2.2.2.1⟩

end AdvancedInfiniteScroll

namespace AdvancedInfiniteScroll

variable {T E : Type}

/-! ## C4 — what retry() actually re-fetches -/

/-- Configuration with no retries, so a first failure is terminal. -/
def noRetryCfg : Config := ⟨0, 0, 5, true⟩

/-- A fetch oracle under which page 0 succeeds and every other page
rejects. -/
def pageOneFails : Env Nat Nat := fun page _ =>
  if page = 0 then .success [7] true none else .failure 3

/-- The state after the initial load of page 0 has succeeded. -/
def afterPageZero : Sys Nat Nat :=
  run noRetryCfg pageOneFails 1
    (initialLoadEffect noRetryCfg pageOneFails (initSys noRetryCfg))

/-- The state after a subsequent `loadMore` of page 1 has failed
terminally. -/
def afterPageOneFailed : Sys Nat Nat :=
  run noRetryCfg pageOneFails 1 (loadMore noRetryCfg pageOneFails afterPageZero)

/-- C4: evaluation of the code at the failing input.  Page 0 loads
successfully, then the load of page 1 fails terminally (`error` is set, no
task is pending, so nothing auto-resumes), and `currentPage` still names
page 0, the last successful page.  Calling `retry()` then issues a fetch of
page 0 — recorded in `fetchLog` as a third invocation `(0, 0)` — and not of
the terminally failed page 1, because `retry` re-invokes
`fetchWithRetry(currentPage, false, 0)` and only a success ever sets
`currentPage`.  (Calling `retry()` with `error = null` issues no fetch, as
the claim also states: shown on `afterPageZero`.) -/
theorem c4_retry_refetches_last_successful_page :
    afterPageOneFailed.error = some 3 ∧
    afterPageOneFailed.tasks = [] ∧
    afterPageOneFailed.currentPage = 0 ∧
    afterPageOneFailed.fetchLog = [(0, 0), (1, 0)] ∧
    (retry noRetryCfg pageOneFails afterPageOneFailed).fetchLog
        = [(0, 0), (1, 0), (0, 0)] ∧
    afterPageZero.error = none ∧
    retry noRetryCfg pageOneFails afterPageZero = afterPageZero := by
  decide

/-! ## C3 — an always-failing fetch with retryLimit 2 -/

end AdvancedInfiniteScroll

namespace AdvancedInfiniteScroll

variable {T E : Type}

/-! ## Single-step shape lemmas for driving concrete executions -/

/-- Unfolding of `fetchWithRetryStart` from a quiescent state: enabled, not
loading, no in-flight page recorded, and (for initial loads) no initial load
in progress. -/
lemma start_clean (cfg : Config) (env : Env T E) (page : Nat)
    (isInitial : Bool) (rc : Nat) (s : Sys T E)
    (h1 : s.enabledRef = true) (h2 : s.loading = false)
    (h3 : s.currentRequestPageRef = none)
    (h4 : isInitial = true → s.isInitialLoadingRef = false) :
    fetchWithRetryStart cfg env page isInitial rc s
      = { s with
          currentRequestPageRef := some page
          isInitialLoadingRef := if isInitial then true else s.isInitialLoadingRef
          curToken := s.curToken + 1
          curAborted := false
          loading := true
          error := none
          isRetrying := if rc > 0 then true else s.isRetrying
          fetchLog := s.fetchLog ++ [(page, rc)]
          tasks := s.tasks ++
            [Task.inflight page isInitial rc (s.curToken + 1)
              (env page s.fetchLog.length)] } := by
  cases isInitial with
  | false => simp [fetchWithRetryStart, h1, h2, h3]
  | true => simp [fetchWithRetryStart, h1, h2, h3, h4 rfl]

/-- Unfolding of a non-cancelled failure settlement that schedules a
retry. -/
lemma settle_fail_retry_eq (cfg : Config) (page : Nat) (isInitial : Bool)
    (rc tok : Nat) (e : E) (s : Sys T E)
    (hab : isAborted s tok = false) (hrc : rc < cfg.retryAttempts) :
    fetchSettle cfg page isInitial rc tok (.failure e) s
      = { s with
          loading := false
          currentRequestPageRef := none
          isInitialLoadingRef := if isInitial then false else s.isInitialLoadingRef
          retryCountRef := rc + 1
          delayLog := s.delayLog ++ [cfg.retryDelay * 2 ^ rc]
          tasks := s.tasks ++
            [Task.retryTimer page isInitial (rc + 1) tok
              (cfg.retryDelay * 2 ^ rc)] } := by
  cases isInitial with
  | false => simp [fetchSettle, settleCleanup, hab, hrc]
  | true => simp [fetchSettle, settleCleanup, hab, hrc]

/-- Unfolding of a non-cancelled failure settlement with retries
exhausted. -/
lemma settle_fail_terminal_eq (cfg : Config) (page : Nat) (isInitial : Bool)
    (rc tok : Nat) (e : E) (s : Sys T E)
    (hab : isAborted s tok = false) (hrc : ¬rc < cfg.retryAttempts) :
    fetchSettle cfg page isInitial rc tok (.failure e) s
      = { s with
          loading := false
          currentRequestPageRef := none
          isInitialLoadingRef := if isInitial then false else s.isInitialLoadingRef
          error := some e
          isRetrying := false
          errorLog := s.errorLog ++ [e] } := by
  cases isInitial with
  | false => simp [fetchSettle, settleCleanup, hab, hrc]
  | true => simp [fetchSettle, settleCleanup, hab, hrc]

/-- Unfolding of a non-cancelled success settlement. -/
lemma settle_success_eq (cfg : Config) (page : Nat) (isInitial : Bool)
    (rc tok : Nat) (newData : List T) (more : Bool) (total : Option Nat)
    (s : Sys T E) (hab : isAborted s tok = false) :
    fetchSettle cfg page isInitial rc tok (.success newData more total) s
      = { s with
          data := if isInitial then newData else s.data ++ newData
          hasMore := more
          currentPage := page
          totalCount := match total with
            | some t => some t
            | none => s.totalCount
          retryCountRef := 0
          isRetrying := false
          successLog := s.successLog ++ [(newData, page)]
          loading := false
          currentRequestPageRef := none
          isInitialLoadingRef := if isInitial then false else s.isInitialLoadingRef } := by
  cases isInitial with
  | false => simp [fetchSettle, settleCleanup, hab]
  | true => simp [fetchSettle, settleCleanup, hab]

/-- Behavior of `step` on a state whose queue head is an awaited fetch. -/
lemma step_task_inflight (cfg : Config) (env : Env T E) (s : Sys T E)
    (page : Nat) (isInitial : Bool) (rc tok : Nat) (res : FetchResult T E)
    (rest : List (Task T E))
    (h : s.tasks = Task.inflight page isInitial rc tok res :: rest) :
    step cfg env s = fetchSettle cfg page isInitial rc tok res
      { s with tasks := rest } := by
  unfold step
  rw [h]

/-- Behavior of `step` on a state whose queue head is a retry timer whose token
is still live: the timer re-invokes `fetchWithRetry`. -/
lemma step_task_retry_live (cfg : Config) (env : Env T E) (s : Sys T E)
    (page : Nat) (isInitial : Bool) (rc tok dl : Nat)
    (rest : List (Task T E))
    (h : s.tasks = Task.retryTimer page isInitial rc tok dl :: rest)
    (hab : isAborted s tok = false) :
    step cfg env s = fetchWithRetryStart cfg env page isInitial rc
      { s with tasks := rest } := by
  unfold step
  rw [h]
  have hab2 : isAborted { s with tasks := rest } tok = false := hab
  simp [hab2]

/-- Behavior of `step` on a state whose queue head is a retry timer whose token
has been invalidated: the timer fires but does nothing (line 181). -/
lemma step_task_retry_dead (cfg : Config) (env : Env T E) (s : Sys T E)
    (page : Nat) (isInitial : Bool) (rc tok dl : Nat)
    (rest : List (Task T E))
    (h : s.tasks = Task.retryTimer page isInitial rc tok dl :: rest)
    (hab : isAborted s tok = true) :
    step cfg env s = { s with tasks := rest } := by
  unfold step
  rw [h]
  have hab2 : isAborted { s with tasks := rest } tok = true := hab
  simp [hab2]

/-- Behavior of `step` on a state whose queue head is the refresh timer. -/
lemma step_task_refresh (cfg : Config) (env : Env T E) (s : Sys T E)
    (rest : List (Task T E)) (h : s.tasks = Task.refreshTimer :: rest) :
    step cfg env s = fetchWithRetryStart cfg env cfg.initialPage true 0
      { s with tasks := rest } := by
  unfold step
  rw [h]

end AdvancedInfiniteScroll

namespace AdvancedInfiniteScroll

variable {T E : Type}

/-! ## C3 — an always-failing fetch with retryLimit 2 -/

/-- Configuration for the C3 scenario: initial page `p`, `retryAttempts = 2`,
base retry delay `d`. -/
def c3cfg (p d : Nat) : Config := ⟨p, 2, d, true⟩

/-- A fetch oracle that rejects every invocation with `e`. -/
def c3env (e : E) : Env T E := fun _ _ => .failure e

/-- The C3 scenario: the automatic initial load of page `p` followed by five
event-loop turns (three settlements and two retry-timer firings), after
which the queue is empty. -/
def c3run (p d : Nat) (e : E) : Sys T E :=
  run (c3cfg p d) (c3env e) 5
    (initialLoadEffect (c3cfg p d) (c3env e) (initSys (c3cfg p d)))

/-- C3 scenario, state after the initial load is issued (attempt 0 in
flight). -/
def c3S1 (p : Nat) (e : E) : Sys T E :=
  { data := [], loading := true, error := none, hasMore := true,
    isRetrying := false, currentPage := p, totalCount := none,
    retryCountRef := 0, currentRequestPageRef := some p,
    isInitialLoadingRef := true, initialLoadRef := true, enabledRef := true,
    curToken := 1, curAborted := false, debounceTimer := false,
    tasks := [.inflight p true 0 1 (.failure e)], fetchLog := [(p, 0)],
    delayLog := [], successLog := [], errorLog := [] }

/-- C3 scenario, state after attempt 0 failed: retry for attempt 1 scheduled
with delay `d × 2^0`, loading and the in-flight marker already cleared. -/
def c3S2 (p d : Nat) : Sys T E :=
  { data := [], loading := false, error := none, hasMore := true,
    isRetrying := false, currentPage := p, totalCount := none,
    retryCountRef := 1, currentRequestPageRef := none,
    isInitialLoadingRef := false, initialLoadRef := true, enabledRef := true,
    curToken := 1, curAborted := false, debounceTimer := false,
    tasks := [.retryTimer p true 1 1 (d * 2 ^ 0)], fetchLog := [(p, 0)],
    delayLog := [d * 2 ^ 0], successLog := [], errorLog := [] }

/-- C3 scenario, state after the first retry timer fired (attempt 1 in
flight). -/
def c3S3 (p d : Nat) (e : E) : Sys T E :=
  { data := [], loading := true, error := none, hasMore := true,
    isRetrying := true, currentPage := p, totalCount := none,
    retryCountRef := 1, currentRequestPageRef := some p,
    isInitialLoadingRef := true, initialLoadRef := true, enabledRef := true,
    curToken := 2, curAborted := false, debounceTimer := false,
    tasks := [.inflight p true 1 2 (.failure e)],
    fetchLog := [(p, 0), (p, 1)],
    delayLog := [d * 2 ^ 0], successLog := [], errorLog := [] }

/-- C3 scenario, state after attempt 1 failed: retry for attempt 2 scheduled
with delay `d × 2^1`. -/
def c3S4 (p d : Nat) : Sys T E :=
  { data := [], loading := false, error := none, hasMore := true,
    isRetrying := true, currentPage := p, totalCount := none,
    retryCountRef := 2, currentRequestPageRef := none,
    isInitialLoadingRef := false, initialLoadRef := true, enabledRef := true,
    curToken := 2, curAborted := false, debounceTimer := false,
    tasks := [.retryTimer p true 2 2 (d * 2 ^ 1)],
    fetchLog := [(p, 0), (p, 1)],
    delayLog := [d * 2 ^ 0, d * 2 ^ 1], successLog := [], errorLog := [] }

/-- C3 scenario, state after the second retry timer fired (attempt 2 in
flight). -/
def c3S5 (p d : Nat) (e : E) : Sys T E :=
  { data := [], loading := true, error := none, hasMore := true,
    isRetrying := true, currentPage := p, totalCount := none,
    retryCountRef := 2, currentRequestPageRef := some p,
    isInitialLoadingRef := true, initialLoadRef := true, enabledRef := true,
    curToken := 3, curAborted := false, debounceTimer := false,
    tasks := [.inflight p true 2 3 (.failure e)],
    fetchLog := [(p, 0), (p, 1), (p, 2)],
    delayLog := [d * 2 ^ 0, d * 2 ^ 1], successLog := [], errorLog := [] }

/-- C3 scenario, terminal state: attempt 2 failed with retries exhausted. -/
def c3S6 (p d : Nat) (e : E) : Sys T E :=
  { data := [], loading := false, error := some e, hasMore := true,
    isRetrying := false, currentPage := p, totalCount := none,
    retryCountRef := 2, currentRequestPageRef := none,
    isInitialLoadingRef := false, initialLoadRef := true, enabledRef := true,
    curToken := 3, curAborted := false, debounceTimer := false,
    tasks := [], fetchLog := [(p, 0), (p, 1), (p, 2)],
    delayLog := [d * 2 ^ 0, d * 2 ^ 1], successLog := [], errorLog := [e] }

/-- C3: for every initial page `p`, base delay `d` and failure value `e`,
with `retryAttempts = 2` and a fetch that always rejects with `e`, the
triggered load of page `p` performs exactly 3 fetch attempts, numbered 0, 1
and 2; the delay scheduled before the second attempt is `d` and the delay
before the third is `d × 2`; and the terminal state has `error` set to the
failure value, `loading = false`, and nothing further scheduled. -/
theorem c3_always_fail_three_attempts (p d : Nat) (e : E) :
    (c3run p d e : Sys T E).fetchLog = [(p, 0), (p, 1), (p, 2)] ∧
    (c3run p d e : Sys T E).delayLog = [d, d * 2] ∧
    (c3run p d e : Sys T E).error = some e ∧
    (c3run p d e : Sys T E).loading = false ∧
    (c3run p d e : Sys T E).tasks = [] := by
  have hcond : (initSys (c3cfg p d) : Sys T E).enabledRef = true ∧
      (initSys (c3cfg p d) : Sys T E).data.length = 0 ∧
      (initSys (c3cfg p d) : Sys T E).loading = false ∧
      (initSys (c3cfg p d) : Sys T E).initialLoadRef = false ∧
      (initSys (c3cfg p d) : Sys T E).isInitialLoadingRef = false :=
    ⟨rfl, rfl, rfl, rfl, rfl⟩
  have h0 : (initialLoadEffect (c3cfg p d) (c3env e) (initSys (c3cfg p d)) : Sys T E)
      = c3S1 p e := by
    unfold initialLoadEffect
    rw [if_pos hcond]
    rw [start_clean (c3cfg p d) (c3env e) (c3cfg p d).initialPage true 0
      { (initSys (c3cfg p d) : Sys T E) with initialLoadRef := true }
      rfl rfl rfl (fun _ => rfl)]
    rfl
  have h1 : step (c3cfg p d) (c3env e) (c3S1 p e : Sys T E) = c3S2 p d := by
    rw [step_task_inflight (c3cfg p d) (c3env e) (c3S1 p e) p true 0 1
      (.failure e) [] rfl]
    rw [settle_fail_retry_eq (c3cfg p d) p true 0 1 e
      { (c3S1 p e : Sys T E) with tasks := [] } rfl
      (show (0 : Nat) < 2 by norm_num)]
    rfl
  have h2 : step (c3cfg p d) (c3env e) (c3S2 p d : Sys T E) = c3S3 p d e := by
    rw [step_task_retry_live (c3cfg p d) (c3env e) (c3S2 p d) p true 1 1
      (d * 2 ^ 0) [] rfl rfl]
    rw [start_clean (c3cfg p d) (c3env e) p true 1
      { (c3S2 p d : Sys T E) with tasks := [] }
      rfl rfl rfl (fun _ => rfl)]
    rfl
  have h3 : step (c3cfg p d) (c3env e) (c3S3 p d e : Sys T E) = c3S4 p d := by
    rw [step_task_inflight (c3cfg p d) (c3env e) (c3S3 p d e) p true 1 2
      (.failure e) [] rfl]
    rw [settle_fail_retry_eq (c3cfg p d) p true 1 2 e
      { (c3S3 p d e : Sys T E) with tasks := [] } rfl
      (show (1 : Nat) < 2 by norm_num)]
    rfl
  have h4 : step (c3cfg p d) (c3env e) (c3S4 p d : Sys T E) = c3S5 p d e := by
    rw [step_task_retry_live (c3cfg p d) (c3env e) (c3S4 p d) p true 2 2
      (d * 2 ^ 1) [] rfl rfl]
    rw [start_clean (c3cfg p d) (c3env e) p true 2
      { (c3S4 p d : Sys T E) with tasks := [] }
      rfl rfl rfl (fun _ => rfl)]
    rfl
  have h5 : step (c3cfg p d) (c3env e) (c3S5 p d e : Sys T E) = c3S6 p d e := by
    rw [step_task_inflight (c3cfg p d) (c3env e) (c3S5 p d e) p true 2 3
      (.failure e) [] rfl]
    rw [settle_fail_terminal_eq (c3cfg p d) p true 2 3 e
      { (c3S5 p d e : Sys T E) with tasks := [] } rfl
      (show ¬(2 : Nat) < 2 by norm_num)]
    rfl
  have hrun : (c3run p d e : Sys T E)
      = step (c3cfg p d) (c3env e) (step (c3cfg p d) (c3env e)
          (step (c3cfg p d) (c3env e) (step (c3cfg p d) (c3env e)
            (step (c3cfg p d) (c3env e)
              (initialLoadEffect (c3cfg p d) (c3env e)
                (initSys (c3cfg p d))))))) := rfl
  rw [hrun, h0, h1, h2, h3, h4, h5]
  refine ⟨rfl, ?_, rfl, rfl, rfl⟩
  show [d * 2 ^ 0, d * 2 ^ 1] = [d, d * 2]
  norm_num

end AdvancedInfiniteScroll

namespace AdvancedInfiniteScroll

variable {T E : Type}

/-! ## C8 — fails twice then succeeds, retryLimit 3 -/

/-- Configuration for the C8 scenario: initial page `p`, `retryAttempts = 3`,
base retry delay `d`. -/
def c8cfg (p d : Nat) : Config := ⟨p, 3, d, true⟩

/-- A fetch oracle that rejects the first two invocations with `e` and
fulfills every later one with `(items, more, total)`. -/
def c8env (e : E) (items : List T) (more : Bool) (total : Option Nat) :
    Env T E :=
  fun _ idx => if idx < 2 then .failure e else .success items more total

/-- The C8 scenario: the automatic initial load of page `p` followed by five
event-loop turns (two failure settlements, two retry-timer firings, one
success settlement). -/
def c8run (p d : Nat) (e : E) (items : List T) (more : Bool)
    (total : Option Nat) : Sys T E :=
  run (c8cfg p d) (c8env e items more total) 5
    (initialLoadEffect (c8cfg p d) (c8env e items more total)
      (initSys (c8cfg p d)))

/-- C8 scenario, state after the initial load is issued (attempt 0 in
flight, which will fail). -/
def c8S1 (p : Nat) (e : E) : Sys T E :=
  { data := [], loading := true, error := none, hasMore := true,
    isRetrying := false, currentPage := p, totalCount := none,
    retryCountRef := 0, currentRequestPageRef := some p,
    isInitialLoadingRef := true, initialLoadRef := true, enabledRef := true,
    curToken := 1, curAborted := false, debounceTimer := false,
    tasks := [.inflight p true 0 1 (.failure e)], fetchLog := [(p, 0)],
    delayLog := [], successLog := [], errorLog := [] }

/-- C8 scenario, state after attempt 0 failed (retry for attempt 1
scheduled). -/
def c8S2 (p d : Nat) : Sys T E :=
  { data := [], loading := false, error := none, hasMore := true,
    isRetrying := false, currentPage := p, totalCount := none,
    retryCountRef := 1, currentRequestPageRef := none,
    isInitialLoadingRef := false, initialLoadRef := true, enabledRef := true,
    curToken := 1, curAborted := false, debounceTimer := false,
    tasks := [.retryTimer p true 1 1 (d * 2 ^ 0)], fetchLog := [(p, 0)],
    delayLog := [d * 2 ^ 0], successLog := [], errorLog := [] }

/-- C8 scenario, state with attempt 1 in flight (which will fail). -/
def c8S3 (p d : Nat) (e : E) : Sys T E :=
  { data := [], loading := true, error := none, hasMore := true,
    isRetrying := true, currentPage := p, totalCount := none,
    retryCountRef := 1, currentRequestPageRef := some p,
    isInitialLoadingRef := true, initialLoadRef := true, enabledRef := true,
    curToken := 2, curAborted := false, debounceTimer := false,
    tasks := [.inflight p true 1 2 (.failure e)],
    fetchLog := [(p, 0), (p, 1)],
    delayLog := [d * 2 ^ 0], successLog := [], errorLog := [] }

/-- C8 scenario, state after attempt 1 failed (retry for attempt 2
scheduled). -/
def c8S4 (p d : Nat) : Sys T E :=
  { data := [], loading := false, error := none, hasMore := true,
    isRetrying := true, currentPage := p, totalCount := none,
    retryCountRef := 2, currentRequestPageRef := none,
    isInitialLoadingRef := false, initialLoadRef := true, enabledRef := true,
    curToken := 2, curAborted := false, debounceTimer := false,
    tasks := [.retryTimer p true 2 2 (d * 2 ^ 1)],
    fetchLog := [(p, 0), (p, 1)],
    delayLog := [d * 2 ^ 0, d * 2 ^ 1], successLog := [], errorLog := [] }

/-- C8 scenario, state with attempt 2 in flight (which will succeed). -/
def c8S5 (p d : Nat) (items : List T) (more : Bool)
    (total : Option Nat) : Sys T E :=
  { data := [], loading := true, error := none, hasMore := true,
    isRetrying := true, currentPage := p, totalCount := none,
    retryCountRef := 2, currentRequestPageRef := some p,
    isInitialLoadingRef := true, initialLoadRef := true, enabledRef := true,
    curToken := 3, curAborted := false, debounceTimer := false,
    tasks := [.inflight p true 2 3 (.success items more total)],
    fetchLog := [(p, 0), (p, 1), (p, 2)],
    delayLog := [d * 2 ^ 0, d * 2 ^ 1], successLog := [], errorLog := [] }

/-- C8 scenario, terminal success state. -/
def c8S6 (p d : Nat) (items : List T) (more : Bool)
    (total : Option Nat) : Sys T E :=
  { data := items, loading := false, error := none, hasMore := more,
    isRetrying := false, currentPage := p,
    totalCount := match total with
      | some t => some t
      | none => none,
    retryCountRef := 0, currentRequestPageRef := none,
    isInitialLoadingRef := false, initialLoadRef := true, enabledRef := true,
    curToken := 3, curAborted := false, debounceTimer := false,
    tasks := [], fetchLog := [(p, 0), (p, 1), (p, 2)],
    delayLog := [d * 2 ^ 0, d * 2 ^ 1], successLog := [(items, p)],
    errorLog := [] }

/-- C8: for every initial page `p`, base delay `d`, failure value `e` and
success payload `(items, more, total)`, with `retryAttempts = 3` and a fetch
that rejects its first two invocations for the page and fulfills the third,
the triggered load ends in a success state — `error = null`,
`isRetrying = false`, `loading = false`, the data holding the fetched items,
nothing further scheduled — and the success callback has fired exactly once
for that page. -/
theorem c8_fail_twice_then_succeed (p d : Nat) (e : E) (items : List T)
    (more : Bool) (total : Option Nat) :
    (c8run p d e items more total : Sys T E).error = none ∧
    (c8run p d e items more total : Sys T E).isRetrying = false ∧
    (c8run p d e items more total : Sys T E).loading = false ∧
    (c8run p d e items more total : Sys T E).successLog = [(items, p)] ∧
    (c8run p d e items more total : Sys T E).data = items ∧
    (c8run p d e items more total : Sys T E).tasks = [] := by
  have hcond : (initSys (c8cfg p d) : Sys T E).enabledRef = true ∧
      (initSys (c8cfg p d) : Sys T E).data.length = 0 ∧
      (initSys (c8cfg p d) : Sys T E).loading = false ∧
      (initSys (c8cfg p d) : Sys T E).initialLoadRef = false ∧
      (initSys (c8cfg p d) : Sys T E).isInitialLoadingRef = false :=
    ⟨rfl, rfl, rfl, rfl, rfl⟩
  have h0 : (initialLoadEffect (c8cfg p d) (c8env e items more total)
        (initSys (c8cfg p d)) : Sys T E) = c8S1 p e := by
    unfold initialLoadEffect
    rw [if_pos hcond]
    rw [start_clean (c8cfg p d) (c8env e items more total)
      (c8cfg p d).initialPage true 0
      { (initSys (c8cfg p d) : Sys T E) with initialLoadRef := true }
      rfl rfl rfl (fun _ => rfl)]
    rfl
  have h1 : step (c8cfg p d) (c8env e items more total) (c8S1 p e : Sys T E)
      = c8S2 p d := by
    rw [step_task_inflight (c8cfg p d) (c8env e items more total) (c8S1 p e)
      p true 0 1 (.failure e) [] rfl]
    rw [settle_fail_retry_eq (c8cfg p d) p true 0 1 e
      { (c8S1 p e : Sys T E) with tasks := [] } rfl
      (show (0 : Nat) < 3 by norm_num)]
    rfl
  have h2 : step (c8cfg p d) (c8env e items more total) (c8S2 p d : Sys T E)
      = c8S3 p d e := by
    rw [step_task_retry_live (c8cfg p d) (c8env e items more total) (c8S2 p d)
      p true 1 1 (d * 2 ^ 0) [] rfl rfl]
    rw [start_clean (c8cfg p d) (c8env e items more total) p true 1
      { (c8S2 p d : Sys T E) with tasks := [] }
      rfl rfl rfl (fun _ => rfl)]
    rfl
  have h3 : step (c8cfg p d) (c8env e items more total) (c8S3 p d e : Sys T E)
      = c8S4 p d := by
    rw [step_task_inflight (c8cfg p d) (c8env e items more total) (c8S3 p d e)
      p true 1 2 (.failure e) [] rfl]
    rw [settle_fail_retry_eq (c8cfg p d) p true 1 2 e
      { (c8S3 p d e : Sys T E) with tasks := [] } rfl
      (show (1 : Nat) < 3 by norm_num)]
    rfl
  have h4 : step (c8cfg p d) (c8env e items more total) (c8S4 p d : Sys T E)
      = c8S5 p d items more total := by
    rw [step_task_retry_live (c8cfg p d) (c8env e items more total) (c8S4 p d)
      p true 2 2 (d * 2 ^ 1) [] rfl rfl]
    rw [start_clean (c8cfg p d) (c8env e items more total) p true 2
      { (c8S4 p d : Sys T E) with tasks := [] }
      rfl rfl rfl (fun _ => rfl)]
    rfl
  have h5 : step (c8cfg p d) (c8env e items more total)
      (c8S5 p d items more total : Sys T E)
      = c8S6 p d items more total := by
    rw [step_task_inflight (c8cfg p d) (c8env e items more total)
      (c8S5 p d items more total) p true 2 3 (.success items more total)
      [] rfl]
    rw [settle_success_eq (c8cfg p d) p true 2 3 items more total
      { (c8S5 p d items more total : Sys T E) with tasks := [] } rfl]
    cases total <;> rfl
  have hrun : (c8run p d e items more total : Sys T E)
      = step (c8cfg p d) (c8env e items more total)
          (step (c8cfg p d) (c8env e items more total)
            (step (c8cfg p d) (c8env e items more total)
              (step (c8cfg p d) (c8env e items more total)
                (step (c8cfg p d) (c8env e items more total)
                  (initialLoadEffect (c8cfg p d) (c8env e items more total)
                    (initSys (c8cfg p d))))))) := rfl
  rw [hrun, h0, h1, h2, h3, h4, h5]
  exact ⟨rfl, rfl, rfl, rfl, rfl, rfl⟩

end AdvancedInfiniteScroll

namespace AdvancedInfiniteScroll

variable {T E : Type}

/-! ## C9 — refresh is equivalent to fresh construction plus initial load -/

/-- Well-formedness of a pending task with respect to a state: its token is
no newer than the current one (tokens are minted sequentially, so every
reachable task satisfies this) and it is not a pending refresh timer. -/
def TaskOk (s : Sys T E) : Task T E → Prop
  | .inflight _ _ _ tok _ => tok ≤ s.curToken
  | .retryTimer _ _ _ tok _ => tok ≤ s.curToken
  | .refreshTimer => False

/-- Running `m + n` turns is running `m` turns and then `n` more. -/
lemma run_add (cfg : Config) (env : Env T E) (m n : Nat) (s : Sys T E) :
    run cfg env (m + n) s = run cfg env n (run cfg env m s) := by
  induction m generalizing s with
  | zero =>
      rw [Nat.zero_add]
      rfl
  | succ m ih =>
      rw [Nat.succ_add]
      exact ih (step cfg env s)

/-- A token bounded by the current one is aborted in a state whose current
controller has been aborted. -/
lemma isAborted_of_le (s : Sys T E) (tok : Nat) (h : tok ≤ s.curToken)
    (hab : s.curAborted = true) : isAborted s tok = true := by
  unfold isAborted
  rcases Nat.lt_or_ge tok s.curToken with hlt | hge
  · simp [hlt]
  · have heq : tok = s.curToken := Nat.le_antisymm h hge
    simp [heq, hab]

/-- Draining the queue after an abort: when the current controller is
aborted and every queued task is token-guarded, executing the queued tasks
leaves the state untouched apart from consuming them. -/
lemma run_drain (cfg : Config) (env : Env T E) (ts : List (Task T E)) :
    ∀ (rest : List (Task T E)) (s : Sys T E), s.curAborted = true →
      s.tasks = ts ++ rest → (∀ t ∈ ts, TaskOk s t) →
      run cfg env ts.length s = { s with tasks := rest } := by
  induction ts with
  | nil =>
      intro rest s hab htasks hts
      have h2 : s.tasks = rest := by simpa using htasks
      show s = { s with tasks := rest }
      rw [← h2]
  | cons t ts ih =>
      intro rest s hab htasks hts
      have hstep : step cfg env s = { s with tasks := ts ++ rest } := by
        cases t with
        | inflight page isInitial rc tok res =>
            rw [step_task_inflight cfg env s page isInitial rc tok res
              (ts ++ rest) htasks]
            exact fetchSettle_aborted cfg page isInitial rc tok res _
              (isAborted_of_le _ tok (hts _ (List.mem_cons_self _ _)) hab)
        | retryTimer page isInitial rc tok dl =>
            exact step_task_retry_dead cfg env s page isInitial rc tok dl
              (ts ++ rest) htasks
              (isAborted_of_le s tok (hts _ (List.mem_cons_self _ _)) hab)
        | refreshTimer => exact (hts _ (List.mem_cons_self _ _)).elim
      show run cfg env (ts.length + 1) s = _
      rw [show run cfg env (ts.length + 1) s
          = run cfg env ts.length (step cfg env s) from rfl, hstep]
      exact ih rest { s with tasks := ts ++ rest } hab rfl
        (fun t2 ht2 => hts t2 (List.mem_cons_of_mem _ ht2))

/-- After `refresh`, draining the previously pending tasks changes nothing:
their tokens were all invalidated by the reset. -/
lemma refresh_drained (cfg : Config) (env : Env T E) (s : Sys T E)
    (hwf : ∀ t ∈ s.tasks, TaskOk s t) :
    run cfg env s.tasks.length (refresh cfg s)
      = { reset cfg s with tasks := [Task.refreshTimer] } :=
  run_drain cfg env s.tasks [Task.refreshTimer] (refresh cfg s) rfl rfl hwf

/-- Snapshots of two non-cancelled initial-load settlements of the same
page with the same result agree whenever the snapshot-relevant incoming
fields agree. -/
lemma settle_snapshot_congr (cfg : Config) (p : Nat) (tok1 tok2 : Nat)
    (res : FetchResult T E) (s1 s2 : Sys T E)
    (h1 : isAborted s1 tok1 = false) (h2 : isAborted s2 tok2 = false)
    (hdata : s1.data = s2.data) (herr : s1.error = s2.error)
    (hhm : s1.hasMore = s2.hasMore) (hcp : s1.currentPage = s2.currentPage)
    (htc : s1.totalCount = s2.totalCount)
    (hir : s1.isRetrying = s2.isRetrying) :
    (fetchSettle cfg p true 0 tok1 res s1).snapshot
      = (fetchSettle cfg p true 0 tok2 res s2).snapshot := by
  cases res with
  | success newData more total =>
      rw [settle_success_eq cfg p true 0 tok1 newData more total s1 h1,
          settle_success_eq cfg p true 0 tok2 newData more total s2 h2]
      cases total <;> simp [Sys.snapshot, htc, herr]
  | failure e =>
      by_cases hrc : 0 < cfg.retryAttempts
      · rw [settle_fail_retry_eq cfg p true 0 tok1 e s1 h1 hrc,
            settle_fail_retry_eq cfg p true 0 tok2 e s2 h2 hrc]
        simp [Sys.snapshot, hdata, herr, hhm, hcp, htc, hir]
      · rw [settle_fail_terminal_eq cfg p true 0 tok1 e s1 h1 hrc,
            settle_fail_terminal_eq cfg p true 0 tok2 e s2 h2 hrc]
        simp [Sys.snapshot, hdata, hhm, hcp, htc]

/-- The state of the refresh side just after its scheduled replace-load of
the initial page has been issued. -/
def r1State (cfg : Config) (env : Env T E) (s : Sys T E) : Sys T E :=
  { data := [], loading := true, error := none, hasMore := true,
    isRetrying := false, currentPage := cfg.initialPage, totalCount := none,
    retryCountRef := 0, currentRequestPageRef := some cfg.initialPage,
    isInitialLoadingRef := true, initialLoadRef := false,
    enabledRef := s.enabledRef, curToken := s.curToken + 1,
    curAborted := false, debounceTimer := false,
    tasks := [.inflight cfg.initialPage true 0 (s.curToken + 1)
      (env cfg.initialPage s.fetchLog.length)],
    fetchLog := s.fetchLog ++ [(cfg.initialPage, 0)],
    delayLog := s.delayLog, successLog := s.successLog,
    errorLog := s.errorLog }

/-- The state of a freshly constructed controller just after the automatic
initial load has been issued. -/
def f1State (cfg : Config) (env : Env T E) : Sys T E :=
  { data := [], loading := true, error := none, hasMore := true,
    isRetrying := false, currentPage := cfg.initialPage, totalCount := none,
    retryCountRef := 0, currentRequestPageRef := some cfg.initialPage,
    isInitialLoadingRef := true, initialLoadRef := true,
    enabledRef := cfg.enabled, curToken := 1, curAborted := false,
    debounceTimer := false,
    tasks := [.inflight cfg.initialPage true 0 1 (env cfg.initialPage 0)],
    fetchLog := [(cfg.initialPage, 0)], delayLog := [], successLog := [],
    errorLog := [] }

/-- C9: for every prior state with a well-formed task queue, when the hook
is enabled and the fetch oracle answers the initial page the same way
regardless of invocation count ("the same fetch results"), `refresh()`
followed by settlement of everything pending yields an outbound snapshot
equal to that of a freshly constructed controller after its one automatic
initial replace-load has settled.  Moreover `refresh` itself issues no
fetch synchronously (the fetch log is untouched and loading stays false
until the zero-delay timer fires). -/
theorem c9_refresh_equals_fresh_construction (cfg : Config) (env : Env T E)
    (s : Sys T E) (hen : s.enabledRef = true) (hcen : cfg.enabled = true)
    (henv : ∀ i, env cfg.initialPage i = env cfg.initialPage 0)
    (hwf : ∀ t ∈ s.tasks, TaskOk s t) :
    (run cfg env (s.tasks.length + 2) (refresh cfg s)).snapshot
      = (run cfg env 1 (initialLoadEffect cfg env (initSys cfg))).snapshot ∧
    (refresh cfg s).fetchLog = s.fetchLog ∧
    (refresh cfg s).loading = false := by
  refine ⟨?_, rfl, rfl⟩
  have hl1 : step cfg env ({ reset cfg s with tasks := [Task.refreshTimer] } : Sys T E)
      = fetchWithRetryStart cfg env cfg.initialPage true 0
          { reset cfg s with tasks := [] } :=
    step_task_refresh cfg env _ [] rfl
  have hl2 : fetchWithRetryStart cfg env cfg.initialPage true 0
      ({ reset cfg s with tasks := [] } : Sys T E) = r1State cfg env s := by
    rw [start_clean cfg env cfg.initialPage true 0
      { reset cfg s with tasks := [] } hen rfl rfl (fun _ => rfl)]
    rfl
  have hl3 : step cfg env (r1State cfg env s)
      = fetchSettle cfg cfg.initialPage true 0 (s.curToken + 1)
          (env cfg.initialPage s.fetchLog.length)
          { r1State cfg env s with tasks := [] } :=
    step_task_inflight cfg env (r1State cfg env s) cfg.initialPage true 0
      (s.curToken + 1) (env cfg.initialPage s.fetchLog.length) [] rfl
  have hL : run cfg env (s.tasks.length + 2) (refresh cfg s)
      = fetchSettle cfg cfg.initialPage true 0 (s.curToken + 1)
          (env cfg.initialPage s.fetchLog.length)
          { r1State cfg env s with tasks := [] } := by
    rw [run_add cfg env s.tasks.length 2 (refresh cfg s),
        refresh_drained cfg env s hwf]
    show step cfg env (step cfg env
      ({ reset cfg s with tasks := [Task.refreshTimer] } : Sys T E)) = _
    rw [hl1, hl2]
    exact hl3
  have hcondF : (initSys cfg : Sys T E).enabledRef = true ∧
      (initSys cfg : Sys T E).data.length = 0 ∧
      (initSys cfg : Sys T E).loading = false ∧
      (initSys cfg : Sys T E).initialLoadRef = false ∧
      (initSys cfg : Sys T E).isInitialLoadingRef = false :=
    ⟨hcen, rfl, rfl, rfl, rfl⟩
  have hr0 : (initialLoadEffect cfg env (initSys cfg) : Sys T E)
      = f1State cfg env := by
    unfold initialLoadEffect
    rw [if_pos hcondF]
    rw [start_clean cfg env cfg.initialPage true 0
      { (initSys cfg : Sys T E) with initialLoadRef := true }
      hcen rfl rfl (fun _ => rfl)]
    rfl
  have hR : run cfg env 1 (initialLoadEffect cfg env (initSys cfg))
      = fetchSettle cfg cfg.initialPage true 0 1 (env cfg.initialPage 0)
          { f1State cfg env with tasks := [] } := by
    rw [show run cfg env 1 (initialLoadEffect cfg env (initSys cfg))
        = step cfg env (initialLoadEffect cfg env (initSys cfg)) from rfl, hr0]
    exact step_task_inflight cfg env (f1State cfg env) cfg.initialPage true 0
      1 (env cfg.initialPage 0) [] rfl
  rw [hL, hR, henv s.fetchLog.length]
  have hab1 : isAborted ({ r1State cfg env s with tasks := [] } : Sys T E)
      (s.curToken + 1) = false := by
    simp [isAborted, r1State]
  have hab2 : isAborted ({ f1State cfg env with tasks := [] } : Sys T E)
      1 = false := by
    simp [isAborted, f1State]
  exact settle_snapshot_congr cfg cfg.initialPage (s.curToken + 1) 1
    (env cfg.initialPage 0) _ _ hab1 hab2 rfl rfl rfl rfl rfl rfl

/-- Configuration for the C9 witness. -/
def c9wCfg : Config := ⟨0, 3, 10, true⟩

/-- Fetch oracle for the C9 witness: every invocation fulfills with the same
payload. -/
def c9wEnv : Env Nat Nat := fun _ _ => .success [1, 2] true (some 5)

/-- C9, witness at concrete inputs: refreshing a fresh controller and
settling gives the same snapshot as constructing and settling the initial
load. -/
theorem c9_witness :
    (run c9wCfg c9wEnv ((initSys c9wCfg : Sys Nat Nat).tasks.length + 2)
        (refresh c9wCfg (initSys c9wCfg))).snapshot
      = (run c9wCfg c9wEnv 1
          (initialLoadEffect c9wCfg c9wEnv (initSys c9wCfg))).snapshot :=
  (c9_refresh_equals_fresh_construction c9wCfg c9wEnv (initSys c9wCfg)
    rfl rfl (fun _ => rfl)
    (fun t ht => absurd ht (by simp [initSys]))).1

end AdvancedInfiniteScroll
